import Mathlib

/-
Shallow embedding of go-trycatch (src/trycatch.go, the current design: the
variant with the nil-try guard, ErrorTryFuncNil, and the deferred reset).

Go error values are modelled by `GoErr`: `GoErr.mk id msg` is an ordinary
error value (the `id` models pointer identity of `errors.New` values, so two
errors with the same message can still be distinct values) and
`GoErr.fromPanic msg` is the fresh error created by `fmt.Errorf("%v", v)`
when a recovered panic payload `v` does not implement `error`.

A panic payload (`GoVal`) either is an error value or is a non-error value,
which we represent by its `%v` string rendering.

The three callables stored in a `TryCatchBlock` are modelled by their
observable behaviour when invoked:
  * the try function either returns an `Option GoErr` (nil / non-nil error)
    or panics with a payload (`TryRun`);
  * the catch handler, given the error it is invoked with, either returns
    normally or panics (`GoErr → CallRun`);
  * the finally function either returns normally or panics (`CallRun`).

`Do` is a function from a block to a `DoResult`: the outcome (normal return
with the named `err` result, or a panic escaping `Do`), the ordered trace of
invocations of the three callables (`Event` list), and the final state of the
block. The definition of `Do` mirrors Go's defer/recover semantics for
src/trycatch.go lines 59-100: deferred functions run in LIFO order
(recover-defer, then the finally-defer, then `reset`), `recover()` stops any
panic in flight and yields its payload, and a panic raised inside a deferred
function replaces the panic in flight while the remaining deferred functions
still run.

The Go field names `try`, `catch`, `finally` are Lean keywords, so the
structure fields are named `tryF`, `catchF`, `finallyF`; the API functions
keep the source names `New`, `Try`, `Catch`, `Finally`, `Do`, `reset`.
-/

namespace GoTryCatch

/-- A Go error value: `mk id msg` an ordinary error (id models identity),
`fromPanic msg` the error built by `fmt.Errorf("%v", v)` from a non-error
panic payload rendered as `msg`. -/
inductive GoErr where
  | mk (id : Nat) (msg : String)
  | fromPanic (msg : String)
deriving DecidableEq, Repr

/-- The textual representation (`Error()` string) of an error value. -/
def GoErr.text : GoErr → String
  | .mk _ m => m
  | .fromPanic m => m

/-- A panic payload: either an error value, or a non-error value represented
by its `%v` rendering. -/
inductive GoVal where
  | err (e : GoErr)
  | str (s : String)
deriving DecidableEq, Repr

/-- `%v` rendering of a panic payload. -/
def GoVal.text : GoVal → String
  | .err e => e.text
  | .str s => s

/-- `var ErrorTryFuncNil = errors.New("try function is nil")` (line 11). -/
def ErrorTryFuncNil : GoErr := GoErr.mk 0 "try function is nil"

/-- Behaviour of a try function when invoked: return an optional error, or
panic with a payload. -/
inductive TryRun where
  | ret (e : Option GoErr)
  | panics (p : GoVal)
deriving Repr

/-- Behaviour of a call to the catch handler or the finally function:
return normally, or panic with a payload. -/
inductive CallRun where
  | ret
  | panics (p : GoVal)
deriving DecidableEq, Repr

/-- `type TryCatchBlock struct { try func() error; catch func(error);
finally func() }` (lines 16-20), each slot optional (nil = `none`). -/
structure TryCatchBlock where
  tryF : Option TryRun
  catchF : Option (GoErr → CallRun)
  finallyF : Option CallRun

/-- `func New() *TryCatchBlock { return &TryCatchBlock{} }` (lines 24-26). -/
def New : TryCatchBlock := ⟨none, none, none⟩

/-- `func (tc *TryCatchBlock) reset()` (lines 30-34): clears all three slots. -/
def reset (_tc : TryCatchBlock) : TryCatchBlock := ⟨none, none, none⟩

/-- `func (tc *TryCatchBlock) Try(try func() error)` (lines 38-41). -/
def Try (tc : TryCatchBlock) (t : Option TryRun) : TryCatchBlock :=
  { tc with tryF := t }

/-- `func (tc *TryCatchBlock) Catch(catch func(error))` (lines 45-48). -/
def Catch (tc : TryCatchBlock) (c : Option (GoErr → CallRun)) : TryCatchBlock :=
  { tc with catchF := c }

/-- `func (tc *TryCatchBlock) Finally(finally func())` (lines 52-55). -/
def Finally (tc : TryCatchBlock) (f : Option CallRun) : TryCatchBlock :=
  { tc with finallyF := f }

/-- Observable invocation events during one `Do()` call. -/
inductive Event where
  | tryCall
  | catchCall (e : GoErr)
  | finallyCall
deriving DecidableEq, Repr

/-- Control state while `Do` unwinds: normal with the named return `err`, or
panicking with a payload. -/
inductive Mode where
  | normal (e : Option GoErr)
  | panicking (p : GoVal)
deriving DecidableEq, Repr

/-- The panic normalization of lines 80-85: an error payload is used as-is,
any other payload is wrapped by `fmt.Errorf("%v", v)`. -/
def normalize : GoVal → GoErr
  | .err e => e
  | .str s => .fromPanic s

/-- Lines 94-97: `err = tc.try()` and, when `err != nil && tc.catch != nil`,
`tc.catch(err)`. Yields the control mode reaching the deferred functions and
the events so far. A panic from the try function, or from this first catch
invocation, leaves the function panicking. -/
def bodyPhase (tc : TryCatchBlock) (body : TryRun) : Mode × List Event :=
  match body with
  | .panics p => (.panicking p, [.tryCall])
  | .ret none => (.normal none, [.tryCall])
  | .ret (some e) =>
    match tc.catchF with
    | none => (.normal (some e), [.tryCall])
    | some h =>
      match h e with
      | .ret => (.normal (some e), [.tryCall, .catchCall e])
      | .panics q => (.panicking q, [.tryCall, .catchCall e])

/-- The deferred recover function of lines 78-90: if a panic is in flight,
`recover()` stops it, `err` is set to the normalized payload, and the catch
handler (if any) is invoked with it; a panic from that handler leaves the
function panicking again. Runs first among the deferred functions (LIFO). -/
def recoverPhase (tc : TryCatchBlock) : Mode × List Event → Mode × List Event
  | (.normal e, evs) => (.normal e, evs)
  | (.panicking p, evs) =>
    match tc.catchF with
    | none => (.normal (some (normalize p)), evs)
    | some h =>
      match h (normalize p) with
      | .ret => (.normal (some (normalize p)), evs ++ [.catchCall (normalize p)])
      | .panics q => (.panicking q, evs ++ [.catchCall (normalize p)])

/-- The deferred finally closure of lines 72-74, registered only when
`tc.finally != nil` at entry; it runs after the recover defer whether or not
a panic is still in flight, and a panic it raises replaces the one in
flight. -/
def finallyPhase (tc : TryCatchBlock) : Mode × List Event → Mode × List Event
  | (m, evs) =>
    match tc.finallyF with
    | none => (m, evs)
    | some .ret => (m, evs ++ [.finallyCall])
    | some (.panics q) => (.panicking q, evs ++ [.finallyCall])

/-- How one call of `Do()` ends: a normal return of the named `err` result,
or a panic propagating to the caller of `Do()`. -/
inductive Outcome where
  | ret (e : Option GoErr)
  | panics (p : GoVal)
deriving DecidableEq, Repr

/-- Reading off the outcome from the final control mode. -/
def modeOutcome : Mode → Outcome
  | .normal e => .ret e
  | .panicking p => .panics p

/-- Everything observable about one call of `Do()`: its outcome, the ordered
trace of callable invocations, and the block's state afterwards. -/
structure DoResult where
  outcome : Outcome
  events : List Event
  final : TryCatchBlock

/-- `func (tc *TryCatchBlock) Do() (err error)` (lines 59-100).
If `tc.try == nil` it returns `ErrorTryFuncNil` at once (lines 62-64):
nothing runs, no defer is registered, the block is untouched. Otherwise the
body runs (lines 94-97) and then the deferred functions in LIFO order:
recover handling (lines 78-90), the finally closure (lines 72-74), and
`reset` (line 68) — `reset` runs even if a panic is still in flight, so the
final state is always cleared on this path. -/
def Do (tc : TryCatchBlock) : DoResult :=
  match tc.tryF with
  | none => ⟨.ret (some ErrorTryFuncNil), [], tc⟩
  | some body =>
    ⟨modeOutcome (finallyPhase tc (recoverPhase tc (bodyPhase tc body))).1,
     (finallyPhase tc (recoverPhase tc (bodyPhase tc body))).2,
     reset tc⟩

/-- Is an event an invocation of the catch handler? -/
def isCatch : Event → Bool
  | .catchCall _ => true
  | _ => false

/-- Number of catch-handler invocations in a trace. -/
def countCatch (evs : List Event) : Nat := (evs.filter isCatch).length

/-- Number of finally invocations in a trace. -/
def countFinally (evs : List Event) : Nat := evs.count Event.finallyCall

end GoTryCatch

/-- Claim C1: when the try function panics and a catch handler is configured,
the handler is invoked exactly once on the unwind path, with the normalized
unified error: an error-shaped payload is passed through as that exact error
value, and a non-error payload becomes an error whose textual representation
equals the stringified payload. -/
theorem GoTryCatch.C1_panic_normalization (tc : TryCatchBlock) (p : GoVal)
    (h : GoErr → CallRun)
    (htry : tc.tryF = some (TryRun.panics p)) (hcatch : tc.catchF = some h) :
    ((Do tc).events.filter isCatch) = [Event.catchCall (normalize p)]
    ∧ (∀ e, p = GoVal.err e → normalize p = e)
    ∧ (∀ s, p = GoVal.str s → (normalize p).text = s) := by
  obtain ⟨t, c, f⟩ := tc
  subst htry hcatch
  refine ⟨?_, ?_, ?_⟩
  · rcases hh : h (normalize p) with _ | q <;>
      rcases f with _ | (_ | q2) <;>
      simp [Do, bodyPhase, recoverPhase, finallyPhase, isCatch, hh]
  · rintro e rfl; rfl
  · rintro s rfl; rfl

/-- Witness for C1 at a concrete block whose try function panics with the
non-error payload "oops". -/
theorem GoTryCatch.C1_panic_normalization_witness :
    ((Do ⟨some (TryRun.panics (GoVal.str "oops")), some (fun _ => CallRun.ret),
        some CallRun.ret⟩).events.filter isCatch)
      = [Event.catchCall (normalize (GoVal.str "oops"))] :=
  (C1_panic_normalization _ (GoVal.str "oops") _ rfl rfl).1

/-- Claim C2 counterexample: a block whose try function returns the error
`mk 1 "boom"` and whose configured handler panics. The claim says the
handler is invoked exactly once with that exact error; on this input the
code invokes the handler twice (the second time with the converted panic of
the handler itself), so the catch count is 2, not 1. -/
theorem GoTryCatch.C2_counterexample :
    (Do ⟨some (TryRun.ret (some (GoErr.mk 1 "boom"))),
         some (fun _ => CallRun.panics (GoVal.str "oops")), some CallRun.ret⟩).events
      = [Event.tryCall, Event.catchCall (GoErr.mk 1 "boom"),
         Event.catchCall (GoErr.fromPanic "oops"), Event.finallyCall]
    ∧ countCatch (Do ⟨some (TryRun.ret (some (GoErr.mk 1 "boom"))),
         some (fun _ => CallRun.panics (GoVal.str "oops")), some CallRun.ret⟩).events ≠ 1 := by
  constructor
  · rfl
  · decide

/-- Claim C2 (amended): when the try function returns a non-nil error, a
catch handler is configured, and that handler returns normally on that
error, the handler is invoked exactly once with that exact error value and
the finally cleanup (if configured) runs exactly once, after the handler. -/
theorem GoTryCatch.C2_amended (tc : TryCatchBlock) (e : GoErr) (h : GoErr → CallRun)
    (htry : tc.tryF = some (TryRun.ret (some e))) (hcatch : tc.catchF = some h)
    (hret : h e = CallRun.ret) :
    ((Do tc).events.filter isCatch = [Event.catchCall e])
    ∧ (∀ f, tc.finallyF = some f →
        (Do tc).events = [Event.tryCall, Event.catchCall e, Event.finallyCall])
    ∧ (tc.finallyF = none → (Do tc).events = [Event.tryCall, Event.catchCall e]) := by
  obtain ⟨t, c, f⟩ := tc
  subst htry hcatch
  refine ⟨?_, ?_, ?_⟩
  · rcases f with _ | (_ | q) <;>
      simp [Do, bodyPhase, recoverPhase, finallyPhase, isCatch, hret]
  · rintro fr rfl
    rcases fr with _ | q <;>
      simp [Do, bodyPhase, recoverPhase, finallyPhase, hret]
  · rintro rfl
    simp [Do, bodyPhase, recoverPhase, finallyPhase, hret]

/-- Witness for the amended C2 at a concrete block: try returns
`mk 1 "boom"`, the handler returns normally, finally is configured. -/
theorem GoTryCatch.C2_amended_witness :
    (Do ⟨some (TryRun.ret (some (GoErr.mk 1 "boom"))), some (fun _ => CallRun.ret),
        some CallRun.ret⟩).events.filter isCatch = [Event.catchCall (GoErr.mk 1 "boom")] :=
  (C2_amended _ (GoErr.mk 1 "boom") _ rfl rfl rfl).1

/-- Claim C3: with a try function configured, the trace of one Do() call is
the try invocation, then the catch-handler invocations (if any), then —
exactly when a finally function is configured — the finally invocation
last: the handler phase always precedes the cleanup, and the cleanup always
runs when configured. -/
theorem GoTryCatch.C3_handler_before_cleanup (tc : TryCatchBlock) (body : TryRun)
    (htry : tc.tryF = some body) :
    ∃ cs : List Event, (∀ ev ∈ cs, isCatch ev = true)
      ∧ (Do tc).events
          = Event.tryCall :: cs
              ++ (if tc.finallyF.isSome then [Event.finallyCall] else []) := by
  obtain ⟨t, c, f⟩ := tc
  subst htry
  rcases body with (_ | e) | p
  · exact ⟨[], by simp, by
      rcases f with _ | (_ | q) <;> simp [Do, bodyPhase, recoverPhase, finallyPhase]⟩
  · rcases c with _ | h
    · exact ⟨[], by simp, by
        rcases f with _ | (_ | q) <;> simp [Do, bodyPhase, recoverPhase, finallyPhase]⟩
    · rcases hh : h e with _ | q
      · exact ⟨[Event.catchCall e], by simp [isCatch], by
          rcases f with _ | (_ | q2) <;>
            simp [Do, bodyPhase, recoverPhase, finallyPhase, hh]⟩
      · rcases hh2 : h (normalize q) with _ | q3 <;>
          exact ⟨[Event.catchCall e, Event.catchCall (normalize q)], by simp [isCatch], by
            rcases f with _ | (_ | q4) <;>
              simp [Do, bodyPhase, recoverPhase, finallyPhase, hh, hh2]⟩
  · rcases c with _ | h
    · exact ⟨[], by simp, by
        rcases f with _ | (_ | q) <;> simp [Do, bodyPhase, recoverPhase, finallyPhase]⟩
    · rcases hh : h (normalize p) with _ | q <;>
        exact ⟨[Event.catchCall (normalize p)], by simp [isCatch], by
          rcases f with _ | (_ | q2) <;>
            simp [Do, bodyPhase, recoverPhase, finallyPhase, hh]⟩

/-- Witness for C3 at a concrete block on the success path with a finally
function configured: the finally invocation occurs. -/
theorem GoTryCatch.C3_handler_before_cleanup_witness :
    Event.finallyCall ∈ (Do ⟨some (TryRun.ret none), none, some CallRun.ret⟩).events := by
  obtain ⟨cs, _, hev⟩ :=
    C3_handler_before_cleanup ⟨some (TryRun.ret none), none, some CallRun.ret⟩ _ rfl
  rw [hev]
  simp

/-- Claim C4: with a try function and a finally function configured, the
finally function runs exactly once in one Do() call, whatever the body does
(returns nil, returns an error, or panics with either payload shape) and
whatever the handler does. -/
theorem GoTryCatch.C4_cleanup_exactly_once (tc : TryCatchBlock) (body : TryRun) (f : CallRun)
    (htry : tc.tryF = some body) (hfin : tc.finallyF = some f) :
    countFinally (Do tc).events = 1 := by
  obtain ⟨t, c, f0⟩ := tc
  subst htry hfin
  rcases body with (_ | e) | p
  · rcases f with _ | q <;>
      simp [Do, bodyPhase, recoverPhase, finallyPhase, countFinally]
  · rcases c with _ | h
    · rcases f with _ | q <;>
        simp [Do, bodyPhase, recoverPhase, finallyPhase, countFinally]
    · rcases hh : h e with _ | q
      · rcases f with _ | q2 <;>
          simp [Do, bodyPhase, recoverPhase, finallyPhase, countFinally, hh]
      · rcases hh2 : h (normalize q) with _ | q3 <;>
          rcases f with _ | q4 <;>
          simp [Do, bodyPhase, recoverPhase, finallyPhase, countFinally, hh, hh2]
  · rcases c with _ | h
    · rcases f with _ | q <;>
        simp [Do, bodyPhase, recoverPhase, finallyPhase, countFinally]
    · rcases hh : h (normalize p) with _ | q <;>
        rcases f with _ | q2 <;>
        simp [Do, bodyPhase, recoverPhase, finallyPhase, countFinally, hh]

/-- Witness for C4 at a concrete block whose try function panics. -/
theorem GoTryCatch.C4_cleanup_exactly_once_witness :
    countFinally (Do ⟨some (TryRun.panics (GoVal.str "x")), none,
        some CallRun.ret⟩).events = 1 :=
  C4_cleanup_exactly_once _ _ _ rfl rfl

/-- Claim C5: with no try function configured, Do() returns the dedicated
sentinel ErrorTryFuncNil, no callable is invoked (empty trace, so neither
handler nor cleanup runs), and the sentinel is distinct from every
panic-derived error value. -/
theorem GoTryCatch.C5_no_body (tc : TryCatchBlock) (htry : tc.tryF = none) :
    (Do tc).outcome = Outcome.ret (some ErrorTryFuncNil)
    ∧ (Do tc).events = []
    ∧ (∀ s, ErrorTryFuncNil ≠ GoErr.fromPanic s) := by
  obtain ⟨t, c, f⟩ := tc
  subst htry
  refine ⟨rfl, rfl, ?_⟩
  intro s
  simp [ErrorTryFuncNil]

/-- Witness for C5 at a concrete block with a handler and a finally function
configured but no try function. -/
theorem GoTryCatch.C5_no_body_witness :
    (Do ⟨none, some (fun _ => CallRun.ret), some CallRun.ret⟩).outcome
      = Outcome.ret (some ErrorTryFuncNil)
    ∧ (Do ⟨none, some (fun _ => CallRun.ret), some CallRun.ret⟩).events = [] :=
  ⟨(C5_no_body _ rfl).1, (C5_no_body _ rfl).2.1⟩

/-- Claim C6 counterexample: try returns the error `mk 1 "boom"` and the
configured handler panics with "oops" when given an ordinary error (and
returns normally on a panic-derived one); finally is configured. The claim
says the handler's panic propagates past Do(), the cleanup is skipped, and
the panic is never converted or re-delivered to the handler. On this input
Do() instead returns normally (outcome is a normal return of the converted
error, not a panic), the cleanup runs, and the converted handler panic is
re-delivered to the handler. -/
theorem GoTryCatch.C6_counterexample :
    (Do ⟨some (TryRun.ret (some (GoErr.mk 1 "boom"))),
         some (fun e => match e with
           | GoErr.mk _ _ => CallRun.panics (GoVal.str "oops")
           | GoErr.fromPanic _ => CallRun.ret),
         some CallRun.ret⟩).outcome = Outcome.ret (some (GoErr.fromPanic "oops"))
    ∧ Event.finallyCall ∈ (Do ⟨some (TryRun.ret (some (GoErr.mk 1 "boom"))),
         some (fun e => match e with
           | GoErr.mk _ _ => CallRun.panics (GoVal.str "oops")
           | GoErr.fromPanic _ => CallRun.ret),
         some CallRun.ret⟩).events
    ∧ Event.catchCall (GoErr.fromPanic "oops") ∈ (Do ⟨some (TryRun.ret (some (GoErr.mk 1 "boom"))),
         some (fun e => match e with
           | GoErr.mk _ _ => CallRun.panics (GoVal.str "oops")
           | GoErr.fromPanic _ => CallRun.ret),
         some CallRun.ret⟩).events := by
  refine ⟨rfl, ?_, ?_⟩ <;> decide

/-- Claim C6 (amended): a panic raised inside the finally function always
propagates past Do(); a panic raised by the catch handler when the handler
was invoked from the panic-recovery path propagates past Do(), but the
configured cleanup still runs first (it is not skipped); a panic raised by
the catch handler when the handler was invoked on the returned-error path
does not propagate: it is intercepted by the recover defer, converted to
the normalized error, delivered to the handler a second time, and — when
that second invocation returns normally — Do() returns the converted error
after the cleanup has run. -/
theorem GoTryCatch.C6_amended (tc : TryCatchBlock) (body : TryRun)
    (htry : tc.tryF = some body) :
    (∀ q, tc.finallyF = some (CallRun.panics q) → (Do tc).outcome = Outcome.panics q)
    ∧ (∀ p h q, body = TryRun.panics p → tc.catchF = some h →
        h (normalize p) = CallRun.panics q → tc.finallyF = some CallRun.ret →
        (Do tc).outcome = Outcome.panics q ∧ Event.finallyCall ∈ (Do tc).events)
    ∧ (∀ e h q, body = TryRun.ret (some e) → tc.catchF = some h →
        h e = CallRun.panics q → h (normalize q) = CallRun.ret →
        tc.finallyF = some CallRun.ret →
        (Do tc).outcome = Outcome.ret (some (normalize q))
        ∧ (Do tc).events = [Event.tryCall, Event.catchCall e,
            Event.catchCall (normalize q), Event.finallyCall]) := by
  obtain ⟨t, c, f⟩ := tc
  subst htry
  refine ⟨?_, ?_, ?_⟩
  · rintro q rfl
    rcases body with (_ | e) | p
    · simp [Do, bodyPhase, recoverPhase, finallyPhase, modeOutcome]
    · rcases c with _ | h
      · simp [Do, bodyPhase, recoverPhase, finallyPhase, modeOutcome]
      · rcases hh : h e with _ | q2
        · simp [Do, bodyPhase, recoverPhase, finallyPhase, modeOutcome, hh]
        · rcases hh2 : h (normalize q2) with _ | q3 <;>
            simp [Do, bodyPhase, recoverPhase, finallyPhase, modeOutcome, hh, hh2]
    · rcases c with _ | h
      · simp [Do, bodyPhase, recoverPhase, finallyPhase, modeOutcome]
      · rcases hh : h (normalize p) with _ | q2 <;>
          simp [Do, bodyPhase, recoverPhase, finallyPhase, modeOutcome, hh]
  · rintro p h q rfl rfl hh rfl
    simp [Do, bodyPhase, recoverPhase, finallyPhase, modeOutcome, hh]
  · rintro e h q rfl rfl hh hh2 rfl
    simp [Do, bodyPhase, recoverPhase, finallyPhase, modeOutcome, hh, hh2]

/-- Witness for the amended C6 at the concrete handler-panics-on-returned-
error block: Do() returns the converted handler panic. -/
theorem GoTryCatch.C6_amended_witness :
    (Do ⟨some (TryRun.ret (some (GoErr.mk 1 "boom"))),
        some (fun e => match e with
          | GoErr.mk _ _ => CallRun.panics (GoVal.str "oops")
          | GoErr.fromPanic _ => CallRun.ret),
        some CallRun.ret⟩).outcome = Outcome.ret (some (normalize (GoVal.str "oops"))) :=
  ((C6_amended _ _ rfl).2.2 (GoErr.mk 1 "boom") _ (GoVal.str "oops") rfl rfl rfl rfl rfl).1

/-- Claim C7 counterexample: try is configured and returns nil, no handler,
the finally function panics with "bad". The claim says Do() returns the
unified error (nil here); on this input Do() does not return at all — it
ends in a panic with payload "bad". -/
theorem GoTryCatch.C7_counterexample :
    (Do ⟨some (TryRun.ret none), none, some (CallRun.panics (GoVal.str "bad"))⟩).outcome
      = Outcome.panics (GoVal.str "bad") := by decide

/-- Claim C7 (amended): with a try function configured, provided the catch
handler (whenever invoked) and the finally function return normally, Do()
returns the unified error — nil when the try function returns nil, the
exact returned error when it returns a non-nil error, and the normalized
panic-derived error when it panics — and in the two failure cases that same
value is the one delivered to the configured handler. -/
theorem GoTryCatch.C7_amended (tc : TryCatchBlock) (body : TryRun)
    (htry : tc.tryF = some body)
    (hfin : tc.finallyF = none ∨ tc.finallyF = some CallRun.ret)
    (hcatch : ∀ h e, tc.catchF = some h → h e = CallRun.ret) :
    ((body = TryRun.ret none → (Do tc).outcome = Outcome.ret none)
    ∧ (∀ e, body = TryRun.ret (some e) →
        (Do tc).outcome = Outcome.ret (some e)
        ∧ (tc.catchF ≠ none → Event.catchCall e ∈ (Do tc).events))
    ∧ (∀ p, body = TryRun.panics p →
        (Do tc).outcome = Outcome.ret (some (normalize p))
        ∧ (tc.catchF ≠ none → Event.catchCall (normalize p) ∈ (Do tc).events))) := by
  obtain ⟨t, c, f⟩ := tc
  subst htry
  refine ⟨?_, ?_, ?_⟩
  · rintro rfl
    rcases hfin with rfl | rfl <;>
      simp [Do, bodyPhase, recoverPhase, finallyPhase, modeOutcome]
  · rintro e rfl
    rcases c with _ | h
    · rcases hfin with rfl | rfl <;>
        simp [Do, bodyPhase, recoverPhase, finallyPhase, modeOutcome]
    · have hh : h e = CallRun.ret := hcatch h e rfl
      rcases hfin with rfl | rfl <;>
        simp [Do, bodyPhase, recoverPhase, finallyPhase, modeOutcome, hh]
  · rintro p rfl
    rcases c with _ | h
    · rcases hfin with rfl | rfl <;>
        simp [Do, bodyPhase, recoverPhase, finallyPhase, modeOutcome]
    · have hh : h (normalize p) = CallRun.ret := hcatch h (normalize p) rfl
      rcases hfin with rfl | rfl <;>
        simp [Do, bodyPhase, recoverPhase, finallyPhase, modeOutcome, hh]

/-- Witness for the amended C7 at a concrete block whose try function panics
with "oops" and whose handler and finally function return normally. -/
theorem GoTryCatch.C7_amended_witness :
    (Do ⟨some (TryRun.panics (GoVal.str "oops")), some (fun _ => CallRun.ret),
        some CallRun.ret⟩).outcome = Outcome.ret (some (normalize (GoVal.str "oops"))) :=
  ((C7_amended _ _ rfl (Or.inr rfl)
      (fun h e hh => by cases Option.some.inj hh; rfl)).2.2 (GoVal.str "oops") rfl).1

/-- Claim C8: after Do() on a block with a try function configured, all
three slots are cleared (the block equals a newly constructed one), so
re-configuring and re-running it is literally re-configuring and re-running
a fresh instance, with no residue from the first configuration. -/
theorem GoTryCatch.C8_reset_on_completion (tc : TryCatchBlock) (body : TryRun)
    (htry : tc.tryF = some body) :
    (Do tc).final = New
    ∧ ∀ t c f, Do (Finally (Catch (Try (Do tc).final t) c) f)
        = Do (Finally (Catch (Try New t) c) f) := by
  obtain ⟨t0, c0, f0⟩ := tc
  subst htry
  exact ⟨rfl, fun t c f => rfl⟩

/-- Witness for C8 at a concrete fully configured block. -/
theorem GoTryCatch.C8_reset_on_completion_witness :
    (Do ⟨some (TryRun.ret none), some (fun _ => CallRun.ret),
        some CallRun.ret⟩).final = New :=
  (C8_reset_on_completion _ _ rfl).1

/-- Claim C9: when the try function returns nil, the catch handler is never
invoked and the configured finally function runs exactly once. -/
theorem GoTryCatch.C9_success_path (tc : TryCatchBlock) (f : CallRun)
    (htry : tc.tryF = some (TryRun.ret none)) (hfin : tc.finallyF = some f) :
    countCatch (Do tc).events = 0 ∧ countFinally (Do tc).events = 1 := by
  obtain ⟨t0, c0, f0⟩ := tc
  subst htry hfin
  rcases f with _ | q <;>
    simp [Do, bodyPhase, recoverPhase, finallyPhase, countCatch, countFinally, isCatch]

/-- Witness for C9 at a concrete block with a handler configured. -/
theorem GoTryCatch.C9_success_path_witness :
    countCatch (Do ⟨some (TryRun.ret none), some (fun _ => CallRun.ret),
        some CallRun.ret⟩).events = 0
    ∧ countFinally (Do ⟨some (TryRun.ret none), some (fun _ => CallRun.ret),
        some CallRun.ret⟩).events = 1 :=
  C9_success_path _ _ rfl rfl

/-- Claim C10: Do() on a block with no try function leaves the block
untouched — the catch and finally slots keep their previously configured
operations (no reset on this early-return path) — so a later Try followed by
Do() on the same instance behaves exactly like Try then Do() on the block as
it was before the no-body call. -/
theorem GoTryCatch.C10_no_body_preserves_state (tc : TryCatchBlock)
    (htry : tc.tryF = none) :
    (Do tc).final = tc
    ∧ (Do tc).final.catchF = tc.catchF
    ∧ (Do tc).final.finallyF = tc.finallyF
    ∧ ∀ t, Do (Try (Do tc).final t) = Do (Try tc t) := by
  obtain ⟨t0, c0, f0⟩ := tc
  subst htry
  exact ⟨rfl, rfl, rfl, fun t => rfl⟩

/-- Witness for C10 at a concrete block with a handler and a finally
function configured but no try function. -/
theorem GoTryCatch.C10_no_body_preserves_state_witness :
    (Do ⟨none, some (fun _ => CallRun.ret), some CallRun.ret⟩).final
      = ⟨none, some (fun _ => CallRun.ret), some CallRun.ret⟩ :=
  (C10_no_body_preserves_state _ rfl).1
